import Mathlib

/-!
Verification of the ARGUS Algorand smart-contract scanner against its
natural-language specification.  The definitions below are a shallow
embedding of the Python sources under src/algorand_scanner/: pure helper
functions become Lean functions, the exception behaviour of try/except
blocks is made explicit through sum types (an input that makes the Python
body raise is a distinguished constructor), and dictionaries with a fixed
key set become structures.
-/

namespace Argus

/-- Severity levels, from models.py SeverityLevel. -/
inductive SeverityLevel
  | CRITICAL
  | HIGH
  | MEDIUM
  | LOW
  | INFO
  deriving DecidableEq, Repr

/-- String value of a severity level, as in the models.py enum. -/
def SeverityLevel.value : SeverityLevel → String
  | .CRITICAL => "CRITICAL"
  | .HIGH => "HIGH"
  | .MEDIUM => "MEDIUM"
  | .LOW => "LOW"
  | .INFO => "INFO"

/-- Supported file types, from models.py FileType. -/
inductive FileType
  | python
  | teal
  | typescript
  | javascript
  deriving DecidableEq, Repr

/-- Individual vulnerability finding, from models.py Vulnerability. -/
structure Vulnerability where
  file : String
  line : Nat
  column : Option Nat
  severity : SeverityLevel
  tool : String
  rule_id : String
  message : String
  description : Option String
  cwe_id : Option String
  confidence : Option String
  code_snippet : Option String
  fix_suggestion : Option String
  deriving DecidableEq, Repr

/-- Severity order list used by core.py _meets_severity_threshold. -/
def severity_order : List String := ["INFO", "LOW", "MEDIUM", "HIGH", "CRITICAL"]

/-- core.py AlgorandScanner._meets_severity_threshold: compares the index of
the finding severity with the index of the configured threshold in
severity_order. -/
def meets_severity_threshold (threshold severity : SeverityLevel) : Bool :=
  let threshold_index := severity_order.indexOf threshold.value
  let severity_index := severity_order.indexOf severity.value
  severity_index ≥ threshold_index

/-- Severity filter comprehension in core.py AlgorandScanner.scan (lines
86-90): keep exactly the findings whose severity meets the threshold. -/
def filter_by_severity (threshold : SeverityLevel) (vulns : List Vulnerability) :
    List Vulnerability :=
  vulns.filter (fun v => meets_severity_threshold threshold v.severity)

/-- Position of a severity level in the total order INFO < LOW < MEDIUM <
HIGH < CRITICAL, used to state the spec property. -/
def sevIdx : SeverityLevel → Nat
  | .INFO => 0
  | .LOW => 1
  | .MEDIUM => 2
  | .HIGH => 3
  | .CRITICAL => 4

/-- Sample finding used to instantiate theorems at concrete inputs. -/
def sampleVuln : Vulnerability :=
  { file := "a.py", line := 1, column := none, severity := SeverityLevel.HIGH,
    tool := "builtin", rule_id := "r", message := "m", description := none,
    cwe_id := none, confidence := none, code_snippet := none,
    fix_suggestion := none }

/-- Scanner configuration, from models.py ScanConfig. -/
structure ScanConfig where
  target_paths : List String
  include_patterns : List String
  exclude_patterns : List String
  analyzers : List String
  severity_threshold : SeverityLevel
  output_format : String
  output_file : Option String
  max_workers : Nat
  timeout : Nat
  deriving DecidableEq, Repr

/-- Lookup of models.py SeverityLevel(value): the level whose string value is
the argument, or none where the Python enum constructor raises ValueError. -/
def SeverityLevel.ofValue : String → Option SeverityLevel
  | "CRITICAL" => some .CRITICAL
  | "HIGH" => some .HIGH
  | "MEDIUM" => some .MEDIUM
  | "LOW" => some .LOW
  | "INFO" => some .INFO
  | _ => none

/-- Input dictionary of models.py ScanConfig.from_dict: each key either
present (some) or absent (none, so that data.get supplies the default). -/
structure ConfigDict where
  target_paths : Option (List String)
  include_patterns : Option (List String)
  exclude_patterns : Option (List String)
  analyzers : Option (List String)
  severity_threshold : Option String
  output_format : Option String
  output_file : Option String
  max_workers : Option Nat
  timeout : Option Nat
  deriving Repr

/-- Dictionary with no keys set, so every from_dict default applies. -/
def ConfigDict.empty : ConfigDict :=
  { target_paths := none, include_patterns := none, exclude_patterns := none,
    analyzers := none, severity_threshold := none, output_format := none,
    output_file := none, max_workers := none, timeout := none }

/-- models.py ScanConfig.from_dict: builds the configuration with data.get
defaults; the SeverityLevel(...) call raises ValueError on an unknown
severity string, modelled as the error case. No other field is validated. -/
def ScanConfig.from_dict (data : ConfigDict) : Except String ScanConfig :=
  match SeverityLevel.ofValue (data.severity_threshold.getD "LOW") with
  | none => Except.error "ValueError: invalid SeverityLevel"
  | some sev => Except.ok
      { target_paths := data.target_paths.getD ["."]
        include_patterns :=
          data.include_patterns.getD ["**/*.py", "**/*.teal", "**/*.ts", "**/*.tsx"]
        exclude_patterns :=
          data.exclude_patterns.getD ["**/node_modules/**", "**/.git/**", "**/venv/**"]
        analyzers := data.analyzers.getD ["builtin", "panda", "tealer"]
        severity_threshold := sev
        output_format := data.output_format.getD "json"
        output_file := data.output_file
        max_workers := data.max_workers.getD 4
        timeout := data.timeout.getD 300 }

/-- Analyzer identifiers recognized by core.py AlgorandScanner.__init__. -/
def known_analyzers : List String := ["builtin", "panda", "tealer", "quality-assurance"]

/-- core.py AlgorandScanner.__init__ (lines 40-48): the four membership tests
that populate self.analyzers, in registration order.  An identifier in
cfg.analyzers that is not one of the four is silently skipped. -/
def init_analyzers (cfg : ScanConfig) : List String :=
  (if cfg.analyzers.contains "builtin" then ["builtin"] else []) ++
  (if cfg.analyzers.contains "panda" then ["panda"] else []) ++
  (if cfg.analyzers.contains "tealer" then ["tealer"] else []) ++
  (if cfg.analyzers.contains "quality-assurance" then ["quality-assurance"] else [])

/-- Behaviour of one file-scan unit at the boundary of core.py scan_file: the
inner _scan_single_file call either returns a finding list or raises. -/
inductive FileScanOutcome
  | ok (vulns : List Vulnerability)
  | raises (excMsg : String)
  deriving DecidableEq, Repr

/-- Error string built by the except branch of core.py scan_file. -/
def scan_error_msg (file_path excMsg : String) : String :=
  "Error scanning " ++ file_path ++ ": " ++ excMsg

/-- core.py scan_file (lines 65-73): on success the findings are returned and
no error is recorded; on an exception one error string is appended and the
file contributes no findings. -/
def scan_file (file_path : String) (outcome : FileScanOutcome) :
    List Vulnerability × List String :=
  match outcome with
  | .ok vs => (vs, [])
  | .raises e => ([], [scan_error_msg file_path e])

/-- Result collection of core.py scan (lines 76-84): findings extend in task
order and each file's recorded errors are appended. -/
def collect_scan : List (String × FileScanOutcome) → List Vulnerability × List String
  | [] => ([], [])
  | (fp, o) :: rest =>
    let r := scan_file fp o
    let r2 := collect_scan rest
    (r.1 ++ r2.1, r.2 ++ r2.2)

/-- Capability view of one registered analyzer: its identifier and its
supports_file_type predicate. -/
structure AnalyzerSpec where
  name : String
  supports : FileType → Bool

/-- Behaviour of one analyzer's analyze call on one file: it either returns a
finding list or raises. -/
inductive AnalyzeOutcome
  | ok (vulns : List Vulnerability)
  | raises (excMsg : String)

/-- Analyzer loop of core.py _scan_single_file (lines 124-134): each analyzer
whose supports_file_type holds is run; an exception inside one analyzer is
caught and only logged (logger.error), so the second component, the error
strings this loop contributes to the scan error list, is built empty. -/
def run_analyzers (file_type : FileType) :
    List (AnalyzerSpec × AnalyzeOutcome) → List Vulnerability × List String
  | [] => ([], [])
  | (a, o) :: rest =>
    let r := run_analyzers file_type rest
    if a.supports file_type then
      match o with
      | .ok avs => (avs ++ r.1, r.2)
      | .raises _ => r
    else r

/-- builtin_analyzer.py supports_file_type: all file types are supported. -/
def BuiltinAnalyzer.supports_file_type (_ft : FileType) : Bool := true

/-- tealer_analyzer.py supports_file_type: TEAL files only, and only when the
availability probe run at construction succeeded. -/
def TealerAnalyzer.supports_file_type (tealer_available : Bool) (ft : FileType) : Bool :=
  ft == FileType.teal && tealer_available

/-- Complete scan results, from models.py ScanResult.  The wall-clock
scan_duration field is not modelled. -/
structure ScanResult where
  files_scanned : Nat
  vulnerabilities : List Vulnerability
  errors : List String
  tools_used : List String
  deriving DecidableEq, Repr

/-- models.py ScanResult.total_vulnerabilities. -/
def ScanResult.total_vulnerabilities (r : ScanResult) : Nat := r.vulnerabilities.length

/-- models.py ScanResult.critical_count. -/
def ScanResult.critical_count (r : ScanResult) : Nat :=
  r.vulnerabilities.countP (fun v => v.severity == SeverityLevel.CRITICAL)

/-- models.py ScanResult.high_count. -/
def ScanResult.high_count (r : ScanResult) : Nat :=
  r.vulnerabilities.countP (fun v => v.severity == SeverityLevel.HIGH)

/-- models.py ScanResult.medium_count. -/
def ScanResult.medium_count (r : ScanResult) : Nat :=
  r.vulnerabilities.countP (fun v => v.severity == SeverityLevel.MEDIUM)

/-- models.py ScanResult.low_count. -/
def ScanResult.low_count (r : ScanResult) : Nat :=
  r.vulnerabilities.countP (fun v => v.severity == SeverityLevel.LOW)

/-- core.py AlgorandScanner.scan (lines 50-104), aggregation: the collected
findings are filtered by the severity threshold before the report is built;
tools_used is list(self.analyzers.keys()), that is, the identifiers selected
at construction, independent of what ran. -/
def AlgorandScanner.scan (cfg : ScanConfig)
    (files : List (String × FileScanOutcome)) : ScanResult :=
  let collected := collect_scan files
  { files_scanned := files.length
    vulnerabilities := filter_by_severity cfg.severity_threshold collected.1
    errors := collected.2
    tools_used := init_analyzers cfg }

/-- Analyzer spec standing for the builtin analyzer in concrete scenarios. -/
def builtinSpec : AnalyzerSpec :=
  { name := "builtin", supports := BuiltinAnalyzer.supports_file_type }

/-- Analyzer spec standing for a tealer analyzer whose availability probe
failed at construction. -/
def tealerUnavailableSpec : AnalyzerSpec :=
  { name := "tealer", supports := TealerAnalyzer.supports_file_type false }

/-- Config dictionary carrying an unknown analyzer identifier. -/
def bogusAnalyzerDict : ConfigDict :=
  { ConfigDict.empty with analyzers := some ["bogus"] }

/-- Config dictionary carrying an unknown severity value. -/
def bogusSeverityDict : ConfigDict :=
  { ConfigDict.empty with severity_threshold := some "BOGUS" }

/-- Configuration produced by from_dict on an empty dictionary. -/
def defaultCfg : ScanConfig :=
  { target_paths := ["."],
    include_patterns := ["**/*.py", "**/*.teal", "**/*.ts", "**/*.tsx"],
    exclude_patterns := ["**/node_modules/**", "**/.git/**", "**/venv/**"],
    analyzers := ["builtin", "panda", "tealer"],
    severity_threshold := SeverityLevel.LOW,
    output_format := "json", output_file := none, max_workers := 4, timeout := 300 }

/-- Configuration produced by from_dict on bogusAnalyzerDict: construction
succeeds, keeping the unknown identifier. -/
def bogusCfg : ScanConfig := { defaultCfg with analyzers := ["bogus"] }

/-- Configuration enabling builtin and tealer, for the tools_used scenario. -/
def c9Cfg : ScanConfig := { defaultCfg with analyzers := ["builtin", "tealer"] }

/-- Sample INFO-severity finding, below a LOW threshold. -/
def infoVuln : Vulnerability := { sampleVuln with severity := SeverityLevel.INFO }

/-- Characters of a string lowercased, modelling Python str.lower (charwise
on the ASCII alphabet, which is all the embedded patterns use). -/
def lower_chars (s : String) : List Char := s.toList.map Char.toLower

/-- Substring occurrence: pat occurs contiguously inside hay.  This models
the Python `pat in s` test and re.search of an alternation of literal
patterns, one literal at a time. -/
def contains_chars (hay pat : List Char) : Bool := decide (pat <:+: hay)

/-- Case-insensitive containment, modelling `pat.lower() in s.lower()` (and
`pat in s.lower()` for an already-lowercase literal pat). -/
def contains_lower (hay pat : String) : Bool :=
  contains_chars (lower_chars hay) (lower_chars pat)

/-- Python str.splitlines restricted to newline-separated text (the only
separator exercised here); a trailing newline yields one trailing empty
line where Python would drop it, which no verified property depends on. -/
def split_lines (s : String) : List String := s.splitOn "\n"

/-- Decorator node shapes consumed by python_parser.py: an ast.Name, an
ast.Call whose callee is an ast.Name, or any other expression (skipped). -/
inductive PyDecorator
  | name (id : String)
  | call (funcId : String)
  | other
  deriving DecidableEq, Repr

/-- Shallow view of an ast.FunctionDef appearing in a class body. -/
structure PyFunctionDef where
  name : String
  lineno : Nat
  decorator_list : List PyDecorator
  args : List String
  deriving DecidableEq, Repr

/-- Shallow view of an ast.ClassDef: bases hold the ast.Name ids and
ast.Attribute attrs of the base-class expressions. -/
structure PyClassDef where
  name : String
  lineno : Nat
  bases : List String
  body : List PyFunctionDef
  deriving DecidableEq, Repr

/-- Shallow view of the parsed Python AST: class definitions reached by
ast.walk and the module names of import statements. -/
structure PyAst where
  classes : List PyClassDef
  importedModules : List String
  deriving DecidableEq, Repr

/-- python_parser.py ALGORAND_IMPORTS. -/
def ALGORAND_IMPORTS : List String :=
  ["pyteal", "algopy", "beaker", "py_algorand_sdk", "algosdk"]

/-- python_parser.py ALGORAND_CLASSES. -/
def ALGORAND_CLASSES : List String :=
  ["ARC4Contract", "Application", "ApplicationStateValue", "Contract"]

/-- Keyword list of python_parser.py _contains_algorand_code. -/
def python_algorand_keywords : List String :=
  ["global.", "txn.", "gtxn.", "app_global_", "app_local_",
   "algorand", "teal", "pyteal", "algopy", "arc4contract"]

/-- python_parser.py _contains_algorand_code: an Algorand-related import
module name, or an Algorand keyword in the lowercased content. -/
def PythonParser.contains_algorand_code (tree : PyAst) (content : String) : Bool :=
  tree.importedModules.any
    (fun m => ALGORAND_IMPORTS.any (fun ai => contains_lower m ai)) ||
  python_algorand_keywords.any (fun kw => contains_lower content kw)

/-- Decorator-name extraction shared by python_parser.py method and function
extraction: Name ids and Call callee ids, other shapes skipped. -/
def decoratorNames (ds : List PyDecorator) : List String :=
  ds.filterMap fun d =>
    match d with
    | .name id => some id
    | .call f => some f
    | .other => none

/-- Method entry of a parsed contract, from python_parser.py
_extract_class_methods. -/
structure PyMethod where
  name : String
  line : Nat
  decorators : List String
  args : List String
  is_abi_method : Bool
  deriving DecidableEq, Repr

/-- Contract entry of a parsed document, from python_parser.py
_extract_contracts. -/
structure PyContract where
  name : String
  line : Nat
  bases : List String
  methods : List PyMethod
  deriving DecidableEq, Repr

/-- python_parser.py _extract_class_methods. -/
def PythonParser.extract_class_methods (c : PyClassDef) : List PyMethod :=
  c.body.map fun node =>
    let decorators := decoratorNames node.decorator_list
    { name := node.name, line := node.lineno, decorators := decorators,
      args := node.args, is_abi_method := decorators.contains "abimethod" }

/-- python_parser.py _extract_contracts: classes inheriting from an Algorand
contract class, with their methods. -/
def PythonParser.extract_contracts (tree : PyAst) : List PyContract :=
  (tree.classes.filter (fun c => c.bases.any (fun b => ALGORAND_CLASSES.contains b))).map
    fun c =>
      { name := c.name, line := c.lineno, bases := c.bases,
        methods := PythonParser.extract_class_methods c }

/-- Normalized document built by python_parser.py parse; the imports,
functions and raw-ast entries, unused by the claims under verification, are
omitted. -/
structure PyDoc where
  file_path : String
  content : String
  contracts : List PyContract
  lines : List String
  deriving DecidableEq, Repr

/-- Input surface of python_parser.py parse with the Python failure modes
explicit: read_text may raise (bad encoding, I/O error) and ast.parse may
raise SyntaxError; otherwise both yield content and a tree. -/
inductive PyParseInput
  | readError (msg : String)
  | syntaxError (content msg : String)
  | parsed (content : String) (tree : PyAst)

/-- python_parser.py parse: every exception of the body is caught (the
SyntaxError handler and the catch-all Exception handler) and surfaces as
None; a file without Algorand content also returns None. -/
def PythonParser.parse (file_path : String) : PyParseInput → Option PyDoc
  | .readError _ => none
  | .syntaxError _ _ => none
  | .parsed content tree =>
    if PythonParser.contains_algorand_code tree content then
      some { file_path := file_path, content := content,
             contracts := PythonParser.extract_contracts tree,
             lines := split_lines content }
    else none

/-- Indicator list of teal_parser.py _is_teal_file. -/
def teal_indicators : List String :=
  ["txn ", "global ", "app_global_", "int ", "byte ", "return", "assert"]

/-- teal_parser.py _is_teal_file: a version pragma on the first stripped
line, or a common TEAL indicator in the lowercased content. -/
def TealParser.is_teal_file (content : String) : Bool :=
  let stripped := content.trim
  let lines := split_lines stripped
  match lines.head? with
  | none => false
  | some first =>
    if (first.trim).startsWith "#pragma version" then true
    else teal_indicators.any (fun ind => contains_lower content ind)

/-- Normalized document built by teal_parser.py parse; the structural
entries unused by the claims under verification (version, labels, opcodes,
subroutines, state operations, transaction fields) are omitted. -/
structure TealDoc where
  file_path : String
  content : String
  lines : List String
  line_count : Nat
  deriving DecidableEq, Repr

/-- Input surface of teal_parser.py parse: read_text may raise, otherwise
the body is pure in the content. -/
inductive TealParseInput
  | readError (msg : String)
  | content (text : String)

/-- teal_parser.py parse: the catch-all Exception handler turns every raise
into None; a non-TEAL file also returns None. -/
def TealParser.parse (file_path : String) : TealParseInput → Option TealDoc
  | .readError _ => none
  | .content text =>
    if TealParser.is_teal_file text then
      let lines := split_lines text
      some { file_path := file_path, content := text, lines := lines,
             line_count := lines.length }
    else none

/-- typescript_parser.py ALGORAND_IMPORTS. -/
def TS_ALGORAND_IMPORTS : List String :=
  ["algosdk", "@algorandfoundation/algokit-utils", "beaker-ts",
   "@algorandfoundation/algokit-client-generator"]

/-- typescript_parser.py ALGORAND_FUNCTIONS. -/
def TS_ALGORAND_FUNCTIONS : List String :=
  ["makeApplicationCallTxnFromObject", "makeApplicationCreateTxnFromObject",
   "makeApplicationUpdateTxnFromObject", "makeApplicationDeleteTxnFromObject",
   "makeApplicationOptInTxnFromObject", "makeApplicationCloseOutTxnFromObject",
   "makeApplicationClearStateTxnFromObject",
   "makePaymentTxnWithSuggestedParamsFromObject",
   "makeAssetCreateTxnWithSuggestedParamsFromObject",
   "makeAssetConfigTxnWithSuggestedParamsFromObject",
   "makeAssetDestroyTxnWithSuggestedParamsFromObject",
   "makeAssetFreezeTxnWithSuggestedParamsFromObject",
   "makeAssetTransferTxnWithSuggestedParamsFromObject",
   "ApplicationClient", "AppClient", "getApplicationAddress",
   "getAppGlobalState", "getAppLocalState", "compilePyTeal", "compileProgram",
   "ABIContract", "ABIMethod", "ABIInterface", "AtomicTransactionComposer",
   "Application", "ApplicationStateValue", "DynamicApplicationStateValue"]

/-- Keyword list of typescript_parser.py _contains_algorand_code. -/
def ts_algorand_keywords : List String :=
  ["algod", "indexer", "application", "txn", "algorand", "teal",
   "appid", "assetid", "microalgos"]

/-- typescript_parser.py _contains_algorand_code. -/
def TypeScriptParser.contains_algorand_code (content : String) : Bool :=
  TS_ALGORAND_IMPORTS.any (fun i => contains_lower content i) ||
  TS_ALGORAND_FUNCTIONS.any (fun f => contains_lower content f) ||
  ts_algorand_keywords.any (fun kw => contains_lower content kw)

/-- Normalized document built by typescript_parser.py parse; the extracted
structural entries unused by the claims under verification (imports,
functions, contracts, transactions, abi calls, security issues) are
omitted. -/
structure TsDoc where
  file_path : String
  content : String
  lines : List String
  deriving DecidableEq, Repr

/-- Input surface of typescript_parser.py parse: read_text may raise,
otherwise the body is pure in the content. -/
inductive TsParseInput
  | readError (msg : String)
  | content (text : String)

/-- typescript_parser.py parse: the catch-all Exception handler turns every
raise into None; a non-Algorand file also returns None. -/
def TypeScriptParser.parse (file_path : String) : TsParseInput → Option TsDoc
  | .readError _ => none
  | .content text =>
    if TypeScriptParser.contains_algorand_code text then
      some { file_path := file_path, content := text, lines := split_lines text }
    else none

/-- Glob matcher modelling fnmatch.fnmatch as file_discovery.py uses it on
POSIX paths: a star matches any character sequence (fnmatch stars cross
path separators), a question mark matches any single character, and every
other character matches itself.  The bracket character-class syntax, which
none of the configured patterns use, is not modelled: a bracket matches
itself literally. -/
def globMatch : List Char → List Char → Bool
  | [], s => s.isEmpty
  | '*' :: ps, s => (List.range (s.length + 1)).any (fun k => globMatch ps (s.drop k))
  | '?' :: ps, s =>
    match s with
    | [] => false
    | _ :: ss => globMatch ps ss
  | p :: ps, s =>
    match s with
    | [] => false
    | c :: ss => p == c && globMatch ps ss

/-- fnmatch.fnmatch(file_str, pattern). -/
def fnmatch (file_str pattern : String) : Bool :=
  globMatch pattern.toList file_str.toList

/-- File path as file_discovery.py sees it: the full path string. -/
structure FPath where
  path : String
  deriving DecidableEq, Repr

/-- Final path component, as pathlib Path.name. -/
def FPath.name (p : FPath) : String := (p.path.splitOn "/").getLastD ""

/-- One pattern test of file_discovery.py _should_include_file: the pattern
against the full path or against the bare filename. -/
def matches_pattern (fp : FPath) (pat : String) : Bool :=
  fnmatch fp.path pat || fnmatch fp.name pat

/-- file_discovery.py _should_include_file (lines 59-73): exclude patterns
are checked first and win; then include patterns; default False. -/
def should_include_file (cfg : ScanConfig) (fp : FPath) : Bool :=
  if cfg.exclude_patterns.any (fun pat => matches_pattern fp pat) then false
  else cfg.include_patterns.any (fun pat => matches_pattern fp pat)

/-- file_discovery.py discover_files (lines 22-42): the candidate set
accumulated from explicit file targets and recursive directory globbing is
the input list, collapsed to a set (dedup); candidates passing
_should_include_file are kept and returned sorted by path. -/
def discover_files (cfg : ScanConfig) (all_files : List FPath) : List FPath :=
  ((all_files.dedup).filter (should_include_file cfg)).mergeSort
    (fun a b => decide (a.path ≤ b.path))

/-- Concrete file inside node_modules, matching both the default include
pattern for .py files and the default node_modules exclude pattern. -/
def exFile : FPath := { path := "x/node_modules/y.py" }

/-- base_analyzer.py _create_vulnerability, with the analyzer name (tool)
passed first. -/
def create_vulnerability (tool file_path : String) (line : Nat)
    (severity : SeverityLevel) (rule_id message : String)
    (description cwe_id confidence code_snippet fix_suggestion : Option String)
    (column : Option Nat) : Vulnerability :=
  { file := file_path, line := line, column := column, severity := severity,
    tool := tool, rule_id := rule_id, message := message,
    description := description, cwe_id := cwe_id, confidence := confidence,
    code_snippet := code_snippet, fix_suggestion := fix_suggestion }

/-- Python newline join of character lists. -/
def join_lines : List (List Char) → List Char
  | [] => []
  | [l] => l
  | l :: ls => l ++ '\n' :: join_lines ls

/-- State-write test of builtin_analyzer.py
_check_missing_access_control_teal: the regex alternation of the two
literal opcodes searched in the lowercased line. -/
def teal_write_pattern (line : String) : Bool :=
  contains_chars (lower_chars line) ("app_global_put".toList) ||
  contains_chars (lower_chars line) ("app_local_put".toList)

/-- Context window of the same check around 1-based line i: the Python
slice lines[max(0, i-5) : min(len(lines), i+2)] with the current line at
0-based index i-1, that is, the preceding 4 lines, the line itself and the
following 2 lines. -/
def teal_context_window (lines : List String) (i : Nat) : List String :=
  let context_start := i - 5
  let context_end := min lines.length (i + 2)
  (lines.drop context_start).take (context_end - context_start)

/-- Sender-verification test of the same check: the regex alternation of
the two literal patterns searched in the joined lowercased context. -/
def teal_sender_check (ctx : List Char) : Bool :=
  contains_chars ctx ("txn sender".toList) ||
  contains_chars ctx ("global creatoraddress".toList)

/-- Lowercased newline-joined context window, as built by
lines '\n'.join(context_lines).lower() in the source. -/
def teal_context (lines : List String) (i : Nat) : List Char :=
  join_lines ((teal_context_window lines i).map lower_chars)

/-- Per-line sender-check test, used to state the window property: the
sender pattern occurs inside one given line. -/
def line_has_sender_check (w : String) : Bool := teal_sender_check (lower_chars w)

/-- Python str.strip on default whitespace, written on the character list
(the built-in String.trim is byte-position based and equivalent). -/
def py_strip (s : String) : String :=
  String.mk
    ((((s.toList).dropWhile Char.isWhitespace).reverse.dropWhile
      Char.isWhitespace).reverse)

/-- HIGH finding emitted by _check_missing_access_control_teal for an
unprotected state write at 1-based line i. -/
def teal_access_vuln (file_path : String) (i : Nat) (line : String) : Vulnerability :=
  create_vulnerability "builtin" file_path i SeverityLevel.HIGH
    "teal_missing_access_control" "State modification without sender verification"
    (some "State modifications should verify the transaction sender")
    (some "CWE-862") (some "MEDIUM") (some (py_strip line))
    (some "Add sender verification before state modifications") none

/-- Loop body of _check_missing_access_control_teal at 0-based index i0
(1-based line number i0 + 1). -/
def check_teal_line (file_path : String) (lines : List String) (i0 : Nat) :
    Option Vulnerability :=
  match lines[i0]? with
  | none => none
  | some line =>
    if teal_write_pattern line then
      if teal_sender_check (teal_context lines (i0 + 1)) then none
      else some (teal_access_vuln file_path (i0 + 1) line)
    else none

/-- builtin_analyzer.py _check_missing_access_control_teal (lines 248-274):
for i, line in enumerate(lines, 1), appending a HIGH finding for each state
write without sender verification in its context window. -/
def check_missing_access_control_teal (file_path : String) (lines : List String) :
    List Vulnerability :=
  (List.range lines.length).filterMap (check_teal_line file_path lines)

/-- TEAL program whose only sender check sits exactly 5 lines before the
state write (1-based line 1 versus the write at line 6). -/
def tealLinesCex : List String :=
  ["txn sender", "int 1", "int 2", "int 3", "int 4", "app_global_put"]

/-- TEAL program with a sender check one line before the state write. -/
def tealLinesProtected : List String := ["txn sender", "app_global_put"]

/-- TEAL program with a state write and no sender check anywhere. -/
def tealLinesBad : List String := ["int 1", "app_global_put"]

/-- Suffix of hay strictly after the leftmost occurrence of pat, or none
when pat does not occur; scanning for the leftmost match models the regex
literal-then-gap-then-literal patterns below. -/
def suffix_after (pat : List Char) : List Char → Option (List Char)
  | [] => if pat.isEmpty then some [] else none
  | c :: rest =>
    if pat <+: (c :: rest) then some ((c :: rest).drop pat.length)
    else suffix_after pat rest

/-- Access-control regex of _check_missing_access_control_python:
re.search of the alternation of assert-gap-sender, Txn.sender-gap-eq and
the literal Global.creator, case-insensitive, applied per line. -/
def py_access_control_pattern (line : String) : Bool :=
  let l := lower_chars line
  (match suffix_after ("assert".toList) l with
   | some rest => contains_chars rest ("sender".toList)
   | none => false) ||
  (match suffix_after ("txn.sender".toList) l with
   | some rest => contains_chars rest ("==".toList)
   | none => false) ||
  contains_chars l ("global.creator".toList)

/-- Method window of _check_missing_access_control_python: the Python slice
lines[method_line-1 : method_line+10] guarded by method_line <= len(lines),
that is, the def line and the 10 following lines. -/
def py_method_window (lines : List String) (method_line : Nat) : List String :=
  if method_line ≤ lines.length then
    (lines.drop (method_line - 1)).take ((method_line + 10) - (method_line - 1))
  else []

/-- builtin_analyzer.py critical_functions. -/
def critical_functions : List String :=
  ["withdraw", "transfer", "mint", "burn", "delete", "destroy", "update"]

/-- CRITICAL finding emitted by _check_missing_access_control_python for a
critical ABI method without access control. -/
def py_access_vuln (file_path : String) (method_line : Nat) (method_name : String) :
    Vulnerability :=
  create_vulnerability "builtin" file_path method_line SeverityLevel.CRITICAL
    "py_missing_access_control"
    ("Critical function '" ++ method_name ++ "' lacks access control")
    (some "Critical functions should verify the caller's authorization")
    (some "CWE-862") (some "MEDIUM") none
    (some "Add sender verification: assert Txn.sender == Global.creator_address")
    none

/-- builtin_analyzer.py _check_missing_access_control_python (lines
109-140): for every contract and every ABI method whose name contains a
critical-function keyword, a CRITICAL finding unless the access-control
pattern occurs in the method window. -/
def check_missing_access_control_python (file_path : String) (lines : List String)
    (contracts : List PyContract) : List Vulnerability :=
  contracts.flatMap fun contract =>
    contract.methods.filterMap fun method =>
      if method.is_abi_method then
        let method_lines := py_method_window lines method.line
        let has_access_control := method_lines.any (fun l => py_access_control_pattern l)
        if critical_functions.any
              (fun f => contains_chars (lower_chars method.name) f.toList)
            && !has_access_control then
          some (py_access_vuln file_path method.line method.name)
        else none
      else none

/-- Source lines of the C7 counterexample contract: the withdraw method's
body (lines 4-5) has no authorization check; the only check line (line 8)
belongs to the following admin method but still falls inside withdraw's
11-line window. -/
def c7Lines : List String :=
  ["from algopy import ARC4Contract, abimethod",
   "class Vault(ARC4Contract):",
   "    @abimethod()",
   "    def withdraw(self) -> None:",
   "        self.balance = 0",
   "    @abimethod()",
   "    def admin(self) -> None:",
   "        assert Txn.sender == Global.creator_address"]

/-- Contracts extracted by python_parser.py from the C7 counterexample. -/
def c7Contracts : List PyContract :=
  [{ name := "Vault", line := 2, bases := ["ARC4Contract"],
     methods :=
       [{ name := "withdraw", line := 4, decorators := ["abimethod"],
          args := ["self"], is_abi_method := true },
        { name := "admin", line := 7, decorators := ["abimethod"],
          args := ["self"], is_abi_method := true }] }]

/-- Minimal contract file whose withdraw method window has no check. -/
def c7WitnessLines : List String :=
  ["class V(ARC4Contract):", "    @abimethod()",
   "    def withdraw(self) -> None:", "        self.balance = 0"]

/-- Withdraw method entry of the minimal scenario. -/
def c7WitnessMethod : PyMethod :=
  { name := "withdraw", line := 3, decorators := ["abimethod"],
    args := ["self"], is_abi_method := true }

/-- Contract entry of the minimal scenario. -/
def c7WitnessContract : PyContract :=
  { name := "V", line := 1, bases := ["ARC4Contract"],
    methods := [c7WitnessMethod] }

/-- Contract list for the minimal withdraw scenario. -/
def c7WitnessContracts : List PyContract := [c7WitnessContract]

theorem meets_severity_threshold_iff (t s : SeverityLevel) :
    meets_severity_threshold t s = true ↔ sevIdx t ≤ sevIdx s := by
  cases t <;> cases s <;> decide

/-- C1: the scan's severity filter keeps a finding iff the order of its
severity is at least the order of the configured threshold under the total
order INFO < LOW < MEDIUM < HIGH < CRITICAL, and raising the threshold can
only shrink or preserve the filtered set. -/
theorem c1_severity_filter_order_and_monotone
    (vulns : List Vulnerability) (t t1 t2 : SeverityLevel) (v : Vulnerability) :
    (v ∈ filter_by_severity t vulns ↔ v ∈ vulns ∧ sevIdx t ≤ sevIdx v.severity) ∧
    (sevIdx t1 ≤ sevIdx t2 →
      ∀ w ∈ filter_by_severity t2 vulns, w ∈ filter_by_severity t1 vulns) := by
  constructor
  · simp [filter_by_severity, List.mem_filter, meets_severity_threshold_iff]
  · intro h12 w hw
    rcases List.mem_filter.mp hw with ⟨hmem, hfit⟩
    refine List.mem_filter.mpr ⟨hmem, ?_⟩
    rw [meets_severity_threshold_iff] at hfit ⊢
    exact le_trans h12 hfit

/-- Concrete instantiation of c1_severity_filter_order_and_monotone. -/
theorem c1_severity_filter_witness :
    (sampleVuln ∈ filter_by_severity SeverityLevel.MEDIUM [sampleVuln] ↔
      sampleVuln ∈ [sampleVuln] ∧
        sevIdx SeverityLevel.MEDIUM ≤ sevIdx sampleVuln.severity) ∧
    ∀ w ∈ filter_by_severity SeverityLevel.HIGH [sampleVuln],
      w ∈ filter_by_severity SeverityLevel.LOW [sampleVuln] :=
  ⟨(c1_severity_filter_order_and_monotone [sampleVuln] SeverityLevel.MEDIUM
      SeverityLevel.LOW SeverityLevel.HIGH sampleVuln).1,
   (c1_severity_filter_order_and_monotone [sampleVuln] SeverityLevel.MEDIUM
      SeverityLevel.LOW SeverityLevel.HIGH sampleVuln).2 (by decide)⟩

/-- C3: if scanning one file raises an exception at the file-unit boundary,
exactly one error string for that file is appended to the scan's error list,
that file contributes zero findings, and every other file is still scanned
with its own findings and errors unaffected. -/
theorem c3_file_failure_isolation
    (pre post : List (String × FileScanOutcome)) (fp e : String) :
    collect_scan (pre ++ (fp, FileScanOutcome.raises e) :: post) =
      ((collect_scan pre).1 ++ (collect_scan post).1,
       (collect_scan pre).2 ++ scan_error_msg fp e :: (collect_scan post).2) := by
  induction pre with
  | nil => simp [collect_scan, scan_file]
  | cons hd tl ih =>
    obtain ⟨fp2, o⟩ := hd
    simp [collect_scan, ih, List.append_assoc]

theorem run_analyzers_errors_nil (ft : FileType)
    (analyzers : List (AnalyzerSpec × AnalyzeOutcome)) :
    (run_analyzers ft analyzers).2 = [] := by
  induction analyzers with
  | nil => rfl
  | cons hd tl ih =>
    obtain ⟨a, o⟩ := hd
    cases o <;> simp [run_analyzers, ih] <;> split <;> simp [ih]

/-- C4 counterexample: a file whose single enabled analyzer raises produces
no error string at all (the except branch in _scan_single_file only logs),
so nothing is recorded in the scan's error list, contrary to the claim. -/
theorem c4_counterexample_no_error_recorded :
    run_analyzers FileType.python [(builtinSpec, AnalyzeOutcome.raises "boom")] =
      ([], []) := rfl

/-- C4 amended: an exception inside one analyzer for one file is caught at
the analyzer-call boundary, that analyzer contributes no findings for that
file, and the remaining analyzers still run and contribute their findings;
however the exception is only logged and no error string is appended to the
scan's error list. -/
theorem c4_analyzer_failure_isolated_but_unrecorded
    (ft : FileType) (pre post : List (AnalyzerSpec × AnalyzeOutcome))
    (a : AnalyzerSpec) (e : String) :
    run_analyzers ft (pre ++ (a, AnalyzeOutcome.raises e) :: post) =
      ((run_analyzers ft pre).1 ++ (run_analyzers ft post).1, []) := by
  induction pre with
  | nil =>
    simp only [List.nil_append, run_analyzers]
    have h2 := run_analyzers_errors_nil ft post
    split
    · exact Prod.ext rfl h2
    · exact Prod.ext rfl h2
  | cons hd tl ih =>
    obtain ⟨a2, o⟩ := hd
    cases o <;> simp [run_analyzers, ih, List.append_assoc, run_analyzers_errors_nil] <;>
      split <;> simp [ih, List.append_assoc, run_analyzers_errors_nil]

/-- C8 counterexample: a configuration whose analyzer list holds only the
unknown identifier "bogus" is constructed successfully (no error before scan
start) and the scanner initializes with no analyzers at all: the unknown
value is silently ignored rather than rejected. -/
theorem c8_counterexample_unknown_analyzer_accepted :
    ScanConfig.from_dict bogusAnalyzerDict = Except.ok bogusCfg ∧
    init_analyzers bogusCfg = [] := by
  constructor <;> rfl

theorem mem_init_analyzers {cfg : ScanConfig} {a : String}
    (h : a ∈ init_analyzers cfg) : a ∈ known_analyzers ∧ a ∈ cfg.analyzers := by
  unfold init_analyzers at h
  simp only [List.mem_append] at h
  rcases h with ((h | h) | h) | h <;> split at h <;>
    simp_all [known_analyzers, List.contains_eq_any_beq, List.any_eq_true]

/-- C8 amended: an unknown severity-threshold value makes configuration
construction fail before any scan starts, but an unknown analyzer identifier
is accepted by configuration construction and silently ignored at scanner
initialization, which only instantiates recognized identifiers. -/
theorem c8_severity_validated_analyzers_not
    (data : ConfigDict) (s : String) (cfg : ScanConfig) :
    (data.severity_threshold = some s → SeverityLevel.ofValue s = none →
      ScanConfig.from_dict data = Except.error "ValueError: invalid SeverityLevel") ∧
    (ScanConfig.from_dict data = Except.ok cfg →
      ∀ a ∈ init_analyzers cfg, a ∈ known_analyzers) := by
  constructor
  · intro hs hval
    unfold ScanConfig.from_dict
    rw [hs]
    simp [Option.getD, hval]
  · intro _ a ha
    exact (mem_init_analyzers ha).1

/-- Concrete instantiation of c8_severity_validated_analyzers_not. -/
theorem c8_severity_validated_witness :
    ScanConfig.from_dict bogusSeverityDict =
      Except.error "ValueError: invalid SeverityLevel" ∧
    ∀ a ∈ init_analyzers defaultCfg, a ∈ known_analyzers :=
  ⟨(c8_severity_validated_analyzers_not bogusSeverityDict "BOGUS" defaultCfg).1
      rfl rfl,
   (c8_severity_validated_analyzers_not ConfigDict.empty "LOW" defaultCfg).2 rfl⟩

/-- C9 counterexample: with builtin and tealer enabled and the tealer probe
failed, tealer supports no file type at all (so it analyzes nothing during
the scan of a TEAL file), yet "tealer" still appears in tools_used. -/
theorem c9_counterexample_tools_used_lists_idle_analyzer :
    (AlgorandScanner.scan c9Cfg
        [("c.teal", FileScanOutcome.ok [])]).tools_used = ["builtin", "tealer"] ∧
    TealerAnalyzer.supports_file_type false FileType.python = false ∧
    TealerAnalyzer.supports_file_type false FileType.teal = false ∧
    TealerAnalyzer.supports_file_type false FileType.typescript = false ∧
    TealerAnalyzer.supports_file_type false FileType.javascript = false := by
  refine ⟨rfl, rfl, rfl, rfl, rfl⟩

/-- C9 amended: the report's tools_used equals the identifiers selected at
scanner construction from the configuration, independent of the scanned
files; every listed identifier is an enabled, recognized analyzer name, but
nothing relates it to having actually analyzed any file. -/
theorem c9_tools_used_is_configured_analyzers
    (cfg : ScanConfig) (files files2 : List (String × FileScanOutcome)) :
    (AlgorandScanner.scan cfg files).tools_used = init_analyzers cfg ∧
    (AlgorandScanner.scan cfg files).tools_used =
      (AlgorandScanner.scan cfg files2).tools_used ∧
    ∀ a ∈ (AlgorandScanner.scan cfg files).tools_used,
      a ∈ cfg.analyzers ∧ a ∈ known_analyzers := by
  refine ⟨rfl, rfl, ?_⟩
  intro a ha
  have h := @mem_init_analyzers cfg a ha
  exact ⟨h.2, h.1⟩

/-- Concrete instantiation of c9_tools_used_is_configured_analyzers. -/
theorem c9_tools_used_witness :
    (AlgorandScanner.scan c9Cfg []).tools_used = init_analyzers c9Cfg ∧
    "builtin" ∈ c9Cfg.analyzers ∧ "builtin" ∈ known_analyzers :=
  ⟨(c9_tools_used_is_configured_analyzers c9Cfg [] []).1,
   (c9_tools_used_is_configured_analyzers c9Cfg [] []).2.2 "builtin" (by decide)⟩

/-- C10: the severity filter runs before the report is constructed, so the
report's finding list, total_vulnerabilities and per-severity counts are all
computed over only the findings at or above the threshold; findings below
the threshold are absent from the list and from every count. -/
theorem c10_filter_before_report
    (cfg : ScanConfig) (files : List (String × FileScanOutcome)) :
    (AlgorandScanner.scan cfg files).vulnerabilities =
      filter_by_severity cfg.severity_threshold (collect_scan files).1 ∧
    (AlgorandScanner.scan cfg files).total_vulnerabilities =
      (collect_scan files).1.countP
        (fun v => meets_severity_threshold cfg.severity_threshold v.severity) ∧
    (AlgorandScanner.scan cfg files).critical_count =
      (collect_scan files).1.countP
        (fun v => (v.severity == SeverityLevel.CRITICAL) &&
          meets_severity_threshold cfg.severity_threshold v.severity) ∧
    (AlgorandScanner.scan cfg files).high_count =
      (collect_scan files).1.countP
        (fun v => (v.severity == SeverityLevel.HIGH) &&
          meets_severity_threshold cfg.severity_threshold v.severity) ∧
    (AlgorandScanner.scan cfg files).medium_count =
      (collect_scan files).1.countP
        (fun v => (v.severity == SeverityLevel.MEDIUM) &&
          meets_severity_threshold cfg.severity_threshold v.severity) ∧
    (AlgorandScanner.scan cfg files).low_count =
      (collect_scan files).1.countP
        (fun v => (v.severity == SeverityLevel.LOW) &&
          meets_severity_threshold cfg.severity_threshold v.severity) ∧
    ∀ v : Vulnerability,
      meets_severity_threshold cfg.severity_threshold v.severity = false →
        v ∉ (AlgorandScanner.scan cfg files).vulnerabilities := by
  refine ⟨rfl, ?_, ?_, ?_, ?_, ?_, ?_⟩
  · simp [AlgorandScanner.scan, ScanResult.total_vulnerabilities,
      filter_by_severity, List.countP_eq_length_filter]
  · simp [AlgorandScanner.scan, ScanResult.critical_count, filter_by_severity,
      List.countP_filter]
  · simp [AlgorandScanner.scan, ScanResult.high_count, filter_by_severity,
      List.countP_filter]
  · simp [AlgorandScanner.scan, ScanResult.medium_count, filter_by_severity,
      List.countP_filter]
  · simp [AlgorandScanner.scan, ScanResult.low_count, filter_by_severity,
      List.countP_filter]
  · intro v hv hmem
    have := (List.mem_filter.mp hmem).2
    simp [hv] at this

/-- Concrete instantiation of c10_filter_before_report. -/
theorem c10_filter_witness :
    (AlgorandScanner.scan defaultCfg
        [("a.py", FileScanOutcome.ok [infoVuln])]).vulnerabilities =
      filter_by_severity defaultCfg.severity_threshold
        (collect_scan [("a.py", FileScanOutcome.ok [infoVuln])]).1 ∧
    infoVuln ∉ (AlgorandScanner.scan defaultCfg
        [("a.py", FileScanOutcome.ok [infoVuln])]).vulnerabilities :=
  ⟨(c10_filter_before_report defaultCfg [("a.py", FileScanOutcome.ok [infoVuln])]).1,
   (c10_filter_before_report defaultCfg
      [("a.py", FileScanOutcome.ok [infoVuln])]).2.2.2.2.2.2 infoVuln (by decide)⟩

/-- C2: for every input, including content whose read raises (invalid
encoding) and content whose parse raises (syntax error), each format
parser's parse never propagates an exception: every failure input maps to
None and every other input yields either a document or None. -/
theorem c2_parser_totality (fp msg content : String) (tree : PyAst) :
    PythonParser.parse fp (PyParseInput.readError msg) = none ∧
    PythonParser.parse fp (PyParseInput.syntaxError content msg) = none ∧
    (PythonParser.parse fp (PyParseInput.parsed content tree) = none ∨
      ∃ d, PythonParser.parse fp (PyParseInput.parsed content tree) = some d) ∧
    TealParser.parse fp (TealParseInput.readError msg) = none ∧
    (TealParser.parse fp (TealParseInput.content content) = none ∨
      ∃ d, TealParser.parse fp (TealParseInput.content content) = some d) ∧
    TypeScriptParser.parse fp (TsParseInput.readError msg) = none ∧
    (TypeScriptParser.parse fp (TsParseInput.content content) = none ∨
      ∃ d, TypeScriptParser.parse fp (TsParseInput.content content) = some d) := by
  refine ⟨rfl, rfl, ?_, rfl, ?_, rfl, ?_⟩
  · cases hp : PythonParser.parse fp (PyParseInput.parsed content tree) with
    | none => exact Or.inl rfl
    | some d => exact Or.inr ⟨d, rfl⟩
  · cases hp : TealParser.parse fp (TealParseInput.content content) with
    | none => exact Or.inl rfl
    | some d => exact Or.inr ⟨d, rfl⟩
  · cases hp : TypeScriptParser.parse fp (TsParseInput.content content) with
    | none => exact Or.inl rfl
    | some d => exact Or.inr ⟨d, rfl⟩

/-- C5: the discovery result is sorted by path with no duplicates, and a
file matching any exclude pattern (against the full path or the bare
filename) never appears in it, even when it also matches an include
pattern. -/
theorem c5_discovery_sorted_nodup_exclude
    (cfg : ScanConfig) (all_files : List FPath) :
    (discover_files cfg all_files).Pairwise (fun a b => a.path ≤ b.path) ∧
    (discover_files cfg all_files).Nodup ∧
    ∀ fp : FPath,
      cfg.exclude_patterns.any (fun pat => matches_pattern fp pat) = true →
        fp ∉ discover_files cfg all_files := by
  refine ⟨?_, ?_, ?_⟩
  · have h := @List.sorted_mergeSort FPath
      (fun a b : FPath => decide (a.path ≤ b.path))
      (fun a b c hab hbc => by
        simp only [decide_eq_true_eq] at hab hbc ⊢
        exact le_trans hab hbc)
      (fun a b => by
        simp only [Bool.or_eq_true, decide_eq_true_eq]
        exact le_total a.path b.path)
      ((all_files.dedup).filter (should_include_file cfg))
    exact h.imp (fun hab => by simpa using hab)
  · exact ((List.mergeSort_perm _ _).nodup_iff).mpr
      ((List.nodup_dedup all_files).filter _)
  · intro fp hexcl hmem
    rw [discover_files, List.mem_mergeSort, List.mem_filter] at hmem
    have hinc := hmem.2
    rw [should_include_file, hexcl] at hinc
    simp at hinc

/-- Concrete instantiation of c5_discovery_sorted_nodup_exclude: a .py file
under node_modules matches the default include pattern yet is excluded. -/
theorem c5_discovery_witness :
    (discover_files defaultCfg [exFile]).Nodup ∧
    exFile ∉ discover_files defaultCfg [exFile] :=
  ⟨(c5_discovery_sorted_nodup_exclude defaultCfg [exFile]).2.1,
   (c5_discovery_sorted_nodup_exclude defaultCfg [exFile]).2.2 exFile (by decide)⟩

theorem prefix_before_sep {α : Type} {pat ys : List α} {c : α} :
    ∀ {xs : List α}, c ∉ pat → pat <+: xs ++ c :: ys → pat <+: xs := by
  induction pat with
  | nil => exact fun _ _ => List.nil_prefix
  | cons p ps ih =>
    intro xs hc h
    cases xs with
    | nil =>
      rw [List.nil_append, List.cons_prefix_cons] at h
      obtain ⟨rfl, -⟩ := h
      exact absurd (List.mem_cons_self p ps) hc
    | cons x xs2 =>
      rw [List.cons_append, List.cons_prefix_cons] at h
      obtain ⟨rfl, h2⟩ := h
      have hc2 : c ∉ ps := fun hm => hc (List.mem_cons_of_mem p hm)
      exact List.cons_prefix_cons.mpr ⟨rfl, ih hc2 h2⟩

theorem infix_split_sep {α : Type} {pat ys : List α} {c : α} :
    ∀ {xs : List α}, c ∉ pat → pat <:+: xs ++ c :: ys →
      pat <:+: xs ∨ pat <:+: ys := by
  intro xs
  induction xs with
  | nil =>
    intro hc h
    rw [List.nil_append, List.infix_cons_iff] at h
    rcases h with h | h
    · cases pat with
      | nil => exact Or.inl List.nil_infix
      | cons p ps =>
        rw [List.cons_prefix_cons] at h
        obtain ⟨rfl, -⟩ := h
        exact absurd (List.mem_cons_self p ps) hc
    · exact Or.inr h
  | cons x xs2 ih =>
    intro hc h
    rw [List.cons_append, List.infix_cons_iff] at h
    rcases h with h | h
    · exact Or.inl (prefix_before_sep hc h).isInfix
    · rcases ih hc h with h2 | h2
      · exact Or.inl (List.infix_cons h2)
      · exact Or.inr h2

theorem infix_join_of_mem {pat l : List Char} {ls : List (List Char)}
    (hl : l ∈ ls) (h : pat <:+: l) : pat <:+: join_lines ls := by
  induction ls with
  | nil => cases hl
  | cons a ls2 ih =>
    cases ls2 with
    | nil =>
      rcases List.mem_singleton.mp hl with rfl
      simpa [join_lines] using h
    | cons b ls3 =>
      rcases List.mem_cons.mp hl with rfl | hl2
      · exact h.trans ⟨[], '\n' :: join_lines (b :: ls3), by simp [join_lines]⟩
      · exact (ih hl2).trans ⟨a ++ ['\n'], [], by simp [join_lines]⟩

theorem mem_of_infix_join {pat : List Char} {ls : List (List Char)}
    (hnl : Char.ofNat 10 ∉ pat) (hne : pat ≠ []) (h : pat <:+: join_lines ls) :
    ∃ l ∈ ls, pat <:+: l := by
  induction ls with
  | nil =>
    rw [join_lines, List.infix_nil] at h
    exact absurd h hne
  | cons a ls2 ih =>
    cases ls2 with
    | nil => exact ⟨a, List.mem_singleton_self a, by simpa [join_lines] using h⟩
    | cons b ls3 =>
      rw [show join_lines (a :: b :: ls3) = a ++ '\n' :: join_lines (b :: ls3)
        from by simp [join_lines]] at h
      rcases infix_split_sep hnl h with h1 | h2
      · exact ⟨a, List.mem_cons_self a (b :: ls3), h1⟩
      · rcases ih h2 with ⟨l, hl, hinf⟩
        exact ⟨l, List.mem_cons_of_mem a hl, hinf⟩

theorem contains_join_iff {pat : List Char} (hnl : Char.ofNat 10 ∉ pat)
    (hne : pat ≠ []) (window : List String) :
    contains_chars (join_lines (window.map lower_chars)) pat = true ↔
      ∃ w ∈ window, contains_chars (lower_chars w) pat = true := by
  rw [contains_chars, decide_eq_true_eq]
  constructor
  · intro h
    rcases mem_of_infix_join hnl hne h with ⟨l, hl, hinf⟩
    rcases List.mem_map.mp hl with ⟨w, hw, rfl⟩
    exact ⟨w, hw, by rw [contains_chars, decide_eq_true_eq]; exact hinf⟩
  · rintro ⟨w, hw, hc⟩
    rw [contains_chars, decide_eq_true_eq] at hc
    exact infix_join_of_mem (List.mem_map_of_mem lower_chars hw) hc

theorem teal_sender_check_context_iff (window : List String) :
    teal_sender_check (join_lines (window.map lower_chars)) = true ↔
      ∃ w ∈ window, line_has_sender_check w = true := by
  rw [teal_sender_check, Bool.or_eq_true,
    contains_join_iff (by decide) (by decide),
    contains_join_iff (by decide) (by decide)]
  unfold line_has_sender_check teal_sender_check
  constructor
  · rintro (⟨w, hw, h⟩ | ⟨w, hw, h⟩)
    · exact ⟨w, hw, by rw [Bool.or_eq_true]; exact Or.inl h⟩
    · exact ⟨w, hw, by rw [Bool.or_eq_true]; exact Or.inr h⟩
  · rintro ⟨w, hw, h⟩
    rw [Bool.or_eq_true] at h
    rcases h with h | h
    · exact Or.inl ⟨w, hw, h⟩
    · exact Or.inr ⟨w, hw, h⟩

theorem check_teal_line_eq_some {file_path : String} {lines : List String}
    {i0 : Nat} {v : Vulnerability} :
    check_teal_line file_path lines i0 = some v ↔
      ∃ line, lines[i0]? = some line ∧ teal_write_pattern line = true ∧
        teal_sender_check (teal_context lines (i0 + 1)) = false ∧
        v = teal_access_vuln file_path (i0 + 1) line := by
  cases h : lines[i0]? with
  | none => simp [check_teal_line, h]
  | some line =>
    simp only [check_teal_line, h, Option.some.injEq]
    split_ifs with hw hs
    · constructor
      · intro hv
        simp at hv
      · rintro ⟨line2, rfl, -, hs2, -⟩
        rw [hs] at hs2
        exact Bool.noConfusion hs2
    · constructor
      · intro hv
        refine ⟨line, rfl, hw, ?_, (Option.some.inj hv).symm⟩
        simp only [Bool.not_eq_true] at hs
        exact hs
      · rintro ⟨line2, rfl, -, -, rfl⟩
        rfl
    · constructor
      · intro hv
        simp at hv
      · rintro ⟨line2, rfl, hw2, -, -⟩
        exact absurd hw2 hw

/-- C6 amended: for an assembly (TEAL) line holding a state-mutating opcode,
the builtin analyzer emits a HIGH missing-access-control finding for that
line iff no sender-check pattern occurs in the window made of the preceding
4 lines, the line itself and the following 2 lines (the Python slice
lines[i-5 : i+2] around the 1-based line i); a sender check anywhere in
that window suppresses the finding. -/
theorem c6_teal_access_control_window (fp : String) (lines : List String)
    (i0 : Nat) (line : String)
    (hline : lines[i0]? = some line)
    (hwrite : teal_write_pattern line = true) :
    ((∃ w ∈ teal_context_window lines (i0 + 1), line_has_sender_check w = true) →
      ∀ v ∈ check_missing_access_control_teal fp lines, v.line ≠ i0 + 1) ∧
    ((∀ w ∈ teal_context_window lines (i0 + 1), line_has_sender_check w = false) →
      teal_access_vuln fp (i0 + 1) line ∈
        check_missing_access_control_teal fp lines) := by
  constructor
  · rintro hex v hv heq
    rcases List.mem_filterMap.mp hv with ⟨j, hj, hsome⟩
    rcases check_teal_line_eq_some.mp hsome with ⟨line2, hl2, hw2, hs2, rfl⟩
    have hj0 : j = i0 := by
      have : j + 1 = i0 + 1 := heq
      omega
    subst hj0
    have htrue : teal_sender_check (teal_context lines (j + 1)) = true := by
      rw [teal_context]
      exact (teal_sender_check_context_iff _).mpr hex
    rw [hs2] at htrue
    cases htrue
  · intro hall
    have hs : teal_sender_check (teal_context lines (i0 + 1)) = false := by
      rw [teal_context]
      by_contra hne
      rw [Bool.not_eq_false] at hne
      rcases (teal_sender_check_context_iff _).mp hne with ⟨w, hw, hcw⟩
      rw [hall w hw] at hcw
      cases hcw
    refine List.mem_filterMap.mpr ⟨i0, List.mem_range.mpr ?_, ?_⟩
    · rcases List.getElem?_eq_some_iff.mp hline with ⟨hlt, -⟩
      exact hlt
    · exact check_teal_line_eq_some.mpr ⟨line, hline, hwrite, hs, rfl⟩

/-- C6 counterexample: the only sender check sits exactly 5 lines before
the state write (line 1 versus the write at line 6), inside the claim's
"preceding 5 lines", yet the analyzer still emits the HIGH finding because
its window only reaches 4 lines back. -/
theorem c6_counterexample_check_five_lines_back_not_seen :
    check_missing_access_control_teal "c.teal" tealLinesCex =
      [teal_access_vuln "c.teal" 6 "app_global_put"] := by decide

/-- Concrete instantiation of c6_teal_access_control_window. -/
theorem c6_teal_window_witness :
    (∀ v ∈ check_missing_access_control_teal "c.teal" tealLinesProtected,
        v.line ≠ 2) ∧
    teal_access_vuln "c.teal" 2 "app_global_put" ∈
      check_missing_access_control_teal "c.teal" tealLinesBad :=
  ⟨(c6_teal_access_control_window "c.teal" tealLinesProtected 1 "app_global_put"
      (by decide) (by decide)).1 ⟨"txn sender", by decide, by decide⟩,
   (c6_teal_access_control_window "c.teal" tealLinesBad 1 "app_global_put"
      (by decide) (by decide)).2 (by decide)⟩

/-- C7 amended: a contract method named withdraw, decorated as an ABI
method, with no sender/creator authorization pattern anywhere in the
11-line window starting at its def line (the def line and the 10 following
lines), produces a CRITICAL finding with the py_missing_access_control rule
at the method's line. -/
theorem c7_withdraw_without_check_in_window (fp : String) (lines : List String)
    (contracts : List PyContract) (c : PyContract) (m : PyMethod)
    (hc : c ∈ contracts) (hm : m ∈ c.methods)
    (habi : m.is_abi_method = true) (hname : m.name = "withdraw")
    (hnone : ∀ l ∈ py_method_window lines m.line,
      py_access_control_pattern l = false) :
    py_access_vuln fp m.line "withdraw" ∈
      check_missing_access_control_python fp lines contracts := by
  rw [check_missing_access_control_python]
  refine List.mem_flatMap.mpr ⟨c, hc, ?_⟩
  refine List.mem_filterMap.mpr ⟨m, hm, ?_⟩
  have hac : (py_method_window lines m.line).any
      (fun l => py_access_control_pattern l) = false := by
    rw [List.any_eq_false]
    intro x hx
    simp [hnone x hx]
  have hcrit : ∃ f ∈ critical_functions,
      contains_chars (lower_chars "withdraw") f.toList = true :=
    ⟨"withdraw", by decide, by decide⟩
  simp [habi, hname, hac]
  exact hcrit

/-- C7 counterexample: the withdraw method at line 4 is an ABI method whose
body (lines 4-5) holds no sender/creator authorization check, so the claim
demands a CRITICAL finding; the analyzer emits nothing, because the
authorization check of the following admin method (line 8) falls inside the
fixed 11-line window it scans from the def line. -/
theorem c7_counterexample_body_check_window_bleed :
    check_missing_access_control_python "vault.py" c7Lines c7Contracts = [] := by
  decide

/-- Concrete instantiation of c7_withdraw_without_check_in_window. -/
theorem c7_withdraw_witness :
    py_access_vuln "v.py" 3 "withdraw" ∈
      check_missing_access_control_python "v.py" c7WitnessLines c7WitnessContracts :=
  c7_withdraw_without_check_in_window "v.py" c7WitnessLines c7WitnessContracts
    c7WitnessContract c7WitnessMethod (by decide) (by decide) rfl rfl (by decide)

end Argus
